import Mathlib

/-!
Verification of the distang-admin dashboard client behaviour.

The definitions below are a shallow embedding of the TypeScript source
of the admin console: HTTP endpoint tables (`src/services/api.ts` and the
alternate client embedded with `src/App.tsx`), button-click mutation
handlers (Users/Couples/Memories/Messages pages), the 300 ms search
debounce effect, the 5 s / 30 s polling effects (ApiLogs and System
pages), pagination button handlers, the API-log client-side filter, the
Dashboard load sequence, the shared axios 401 interceptor, the
delete-and-filter list updates of the older Users/Messages pages, and
the `getActivityStatus` labelling of `src/pages/Users.tsx`.
-/

/-- HTTP methods used by the axios client wrappers. -/
inductive Method
  | GET
  | POST
  | PUT
  | PATCH
  | DELETE
deriving DecidableEq, Repr

/-- One entry of an `adminApi` object: wrapper name, HTTP method and the
path template it targets (`{id}` stands for the interpolated id). -/
structure Endpoint where
  name : String
  method : Method
  path : String
deriving DecidableEq, Repr

/-- The `adminApi` table of `src/services/api.ts`: every wrapper with the
axios verb it calls and the URL it builds. -/
def client1Endpoints : List Endpoint := [
  ⟨"login", Method.POST, "/admin/login"⟩,
  ⟨"getStats", Method.GET, "/admin/stats"⟩,
  ⟨"getUsers", Method.GET, "/admin/users"⟩,
  ⟨"getUser", Method.GET, "/admin/users/{id}"⟩,
  ⟨"deleteUser", Method.DELETE, "/admin/users/{id}"⟩,
  ⟨"updateUser", Method.PATCH, "/admin/users/{id}"⟩,
  ⟨"getCouples", Method.GET, "/admin/couples"⟩,
  ⟨"deleteCouple", Method.DELETE, "/admin/couples/{id}"⟩,
  ⟨"getMemories", Method.GET, "/admin/memories"⟩,
  ⟨"deleteMemory", Method.DELETE, "/admin/memories/{id}"⟩,
  ⟨"getMessages", Method.GET, "/admin/messages"⟩,
  ⟨"deleteMessage", Method.DELETE, "/admin/messages/{id}"⟩,
  ⟨"getHealth", Method.GET, "/health"⟩,
  ⟨"getLogs", Method.GET, "/admin/logs"⟩]

/-- The alternate `adminApi` table shipped with `src/App.tsx` (the client
the newer pages' call signatures match): note `updateUser` calls
`api.put`, not `api.patch`. -/
def client2Endpoints : List Endpoint := [
  ⟨"login", Method.POST, "/admin/login"⟩,
  ⟨"getStats", Method.GET, "/admin/stats"⟩,
  ⟨"getAnalytics", Method.GET, "/admin/analytics"⟩,
  ⟨"getActivityFeed", Method.GET, "/admin/activity"⟩,
  ⟨"getSystemHealth", Method.GET, "/admin/health"⟩,
  ⟨"getUsers", Method.GET, "/admin/users"⟩,
  ⟨"getUser", Method.GET, "/admin/users/{id}"⟩,
  ⟨"updateUser", Method.PUT, "/admin/users/{id}"⟩,
  ⟨"deleteUser", Method.DELETE, "/admin/users/{id}"⟩,
  ⟨"getCouples", Method.GET, "/admin/couples"⟩,
  ⟨"getCouple", Method.GET, "/admin/couples/{id}"⟩,
  ⟨"deleteCouple", Method.DELETE, "/admin/couples/{id}"⟩,
  ⟨"getMemories", Method.GET, "/admin/memories"⟩,
  ⟨"deleteMemory", Method.DELETE, "/admin/memories/{id}"⟩,
  ⟨"getMessages", Method.GET, "/admin/messages"⟩,
  ⟨"deleteMessage", Method.DELETE, "/admin/messages/{id}"⟩,
  ⟨"exportData", Method.GET, "/admin/export"⟩]

/-- `updateUser` of `src/services/api.ts`: `api.patch('/admin/users/' + id)`. -/
def client1UpdateUser (id : String) : Method × String :=
  (Method.PATCH, "/admin/users/" ++ id)

/-- `updateUser` of the `src/App.tsx` client: `api.put('/admin/users/' + id)`. -/
def client2UpdateUser (id : String) : Method × String :=
  (Method.PUT, "/admin/users/" ++ id)

/-- A request is a mutation when its wrapper does not call `api.get`. -/
def Endpoint.isMutation (e : Endpoint) : Bool :=
  e.method != Method.GET

/-- State visible to the axios response interceptor: the stored
`admin_token` and the value of `window.location.href`. -/
structure ClientState where
  token : Option String
  location : String
deriving DecidableEq, Repr

/-- An axios error as the interceptor sees it: `error.response?.status`
(absent for network errors) plus the rest of the error object, kept
abstract as a payload string. -/
structure AxiosError where
  status : Option Nat
  payload : String
deriving DecidableEq, Repr

/-- The response interceptor of `src/services/api.ts` (identical in the
`src/App.tsx` client): on `error.response?.status === 401` it removes
`admin_token` from localStorage and sets `window.location.href = '/'`;
in every case it returns `Promise.reject(error)` with the same error. -/
def onResponseError (err : AxiosError) (st : ClientState) :
    ClientState × AxiosError :=
  if err.status = some 401 then
    ({ st with token := none, location := "/" }, err)
  else
    (st, err)

/-- A row of the older Users page's `users` state (`_id` plus the rest of
the record, abstracted as one string). -/
structure UserRow where
  _id : String
  rest : String
deriving DecidableEq, Repr

/-- A row of the older Messages page's `messages` state. -/
structure MessageRow where
  _id : String
  rest : String
deriving DecidableEq, Repr

/-- `handleDelete` of the older Users page: after `window.confirm`, on a
successful `adminApi.deleteUser` it runs
`setUsers(users.filter(u => u._id !== userId))` and `setShowModal(false)`;
on failure it only alerts, leaving state alone; a declined dialog returns
early. Result: the `users` list and the `showModal` flag. -/
def usersHandleDelete (confirmAnswer success : Bool) (users : List UserRow)
    (userId : String) (showModal : Bool) : List UserRow × Bool :=
  if !confirmAnswer then (users, showModal)
  else if success then (users.filter (fun u => u._id != userId), false)
  else (users, showModal)

/-- `handleDelete` of the older Messages page: after `window.confirm`, on
success it runs `setMessages(messages.filter(m => m._id !== messageId))`;
on failure it only alerts. -/
def messagesHandleDelete (confirmAnswer success : Bool)
    (messages : List MessageRow) (messageId : String) : List MessageRow :=
  if !confirmAnswer then messages
  else if success then messages.filter (fun m => m._id != messageId)
  else messages

/-- The label part of `getActivityStatus`'s result on the Users page. -/
inductive ActivityLabel
  | never
  | online
  | hoursAgo (n : Int)
  | daysAgo (n : Int)
  | inactive
deriving DecidableEq, Repr

/-- Milliseconds per hour, the `3600000` literal of `getActivityStatus`. -/
def msPerHour : Int := 3600000

/-- `getActivityStatus` of `src/pages/Users.tsx`, times in milliseconds:
`diff = Date.now() - new Date(lastActive).getTime()`, `hours = diff/3600000`,
then the four-way chain on `hours` with `Math.floor` for the counts.
In the branches taken the difference is positive, so JS `Math.floor` of the
real quotient agrees with integer division. -/
def getActivityStatus (nowMs : Int) (lastActive : Option Int) : ActivityLabel :=
  match lastActive with
  | none => ActivityLabel.never
  | some t =>
    let diff := nowMs - t
    if diff < msPerHour then ActivityLabel.online
    else if diff < 24 * msPerHour then ActivityLabel.hoursAgo (diff / msPerHour)
    else if diff < 168 * msPerHour then ActivityLabel.daysAgo (diff / (24 * msPerHour))
    else ActivityLabel.inactive

/-- The filter selector state of the ApiLogs page. -/
inductive LogFilter
  | all
  | errors
  | slow
deriving DecidableEq, Repr

/-- One row of the ApiLogs page's `logs` state. -/
structure LogEntry where
  method : String
  url : String
  status : Nat
  duration : Nat
deriving DecidableEq, Repr

/-- The predicate body of the `logs.filter(...)` lambda in
`src/pages/ApiLogs.tsx`: `errors` keeps `status >= 400`, `slow` keeps
`duration > 1000`, otherwise everything. -/
def logMatches (f : LogFilter) (log : LogEntry) : Bool :=
  match f with
  | LogFilter.errors => decide (log.status ≥ 400)
  | LogFilter.slow => decide (log.duration > 1000)
  | LogFilter.all => true

/-- `filteredLogs` of `src/pages/ApiLogs.tsx`: `logs.filter(...)`. -/
def filteredLogs (f : LogFilter) (logs : List LogEntry) : List LogEntry :=
  logs.filter (logMatches f)

/-- A side effect emitted by a button-click handler: a `confirm(...)`
dialog, an HTTP request through `adminApi`, or a React state update. -/
inductive Effect
  | confirmDialog (msg : String)
  | request (name : String)
  | setState (field : String)
deriving DecidableEq, Repr

/-- `toggleBan` of `src/pages/Users.tsx` as its effect trace, given the
answer to the confirm dialog: `confirm(...)`, early return on decline,
otherwise `updateUser`, `loadUsers()` and a conditional
`setSelectedUser`. -/
def usersToggleBan (currentStatus selectedMatches answer : Bool) : List Effect :=
  Effect.confirmDialog
      (if currentStatus then "unban this user" else "ban this user") ::
    if answer then
      Effect.request "updateUser" :: Effect.request "getUsers" ::
        (if selectedMatches then [Effect.setState "selectedUser"] else [])
    else []

/-- `toggleVerify` of `src/pages/Users.tsx`: it calls `updateUser`
directly — there is no `confirm(...)` call in its body, so the dialog
answer is never consulted. -/
def usersToggleVerify (selectedMatches _answer : Bool) : List Effect :=
  Effect.request "updateUser" :: Effect.request "getUsers" ::
    (if selectedMatches then [Effect.setState "selectedUser"] else [])

/-- `deleteUser` of `src/pages/Users.tsx`: confirm, then `deleteUser`,
`setShowModal(false)`, `loadUsers()`. -/
def usersDeleteUser (answer : Bool) : List Effect :=
  Effect.confirmDialog "permanently delete this user" ::
    if answer then
      [Effect.request "deleteUser", Effect.setState "showModal",
        Effect.request "getUsers"]
    else []

/-- `deleteMessage` of `src/pages/Messages.tsx`: confirm, then
`deleteMessage` and `loadMessages()`. -/
def messagesDeleteMessage (answer : Bool) : List Effect :=
  Effect.confirmDialog "delete this message" ::
    if answer then
      [Effect.request "deleteMessage", Effect.request "getMessages"]
    else []

/-- `deleteMemory` of `src/pages/Memories.tsx`: confirm, then
`deleteMemory`, `setSelectedMemory(null)`, `loadMemories()`. -/
def memoriesDeleteMemory (answer : Bool) : List Effect :=
  Effect.confirmDialog "delete this memory" ::
    if answer then
      [Effect.request "deleteMemory", Effect.setState "selectedMemory",
        Effect.request "getMemories"]
    else []

/-- `breakupCouple` of `src/pages/Couples.tsx`: confirm, then
`deleteCouple`, `setShowModal(false)`, `loadCouples()`. -/
def couplesBreakupCouple (answer : Bool) : List Effect :=
  Effect.confirmDialog "break up this couple" ::
    if answer then
      [Effect.request "deleteCouple", Effect.setState "showModal",
        Effect.request "getCouples"]
    else []

/-- `handleDelete` of the older Users page as an effect trace:
`window.confirm`, then `deleteUser`, `setUsers(filter)`,
`setShowModal(false)`. -/
def oldUsersHandleDeleteTrace (answer : Bool) : List Effect :=
  Effect.confirmDialog "delete this user" ::
    if answer then
      [Effect.request "deleteUser", Effect.setState "users",
        Effect.setState "showModal"]
    else []

/-- `handleDelete` of the older Messages page as an effect trace:
`window.confirm`, then `deleteMessage`, `setMessages(filter)`. -/
def oldMessagesHandleDeleteTrace (answer : Bool) : List Effect :=
  Effect.confirmDialog "delete this message" ::
    if answer then
      [Effect.request "deleteMessage", Effect.setState "messages"]
    else []

/-- A trace opens with a confirmation dialog. -/
def hasConfirmFirst : List Effect → Bool
  | Effect.confirmDialog _ :: _ => true
  | _ => false

/-- An effect that is an HTTP request. -/
def Effect.isRequest : Effect → Bool
  | Effect.request _ => true
  | _ => false

/-- A trace that neither issues a request nor touches view state. -/
def mutationFree (trace : List Effect) : Bool :=
  trace.all fun e =>
    match e with
    | Effect.confirmDialog _ => true
    | _ => false

/-- Every button-click mutation handler of the console, instantiated at
all parameter values, paired as (trace on an accepted dialog, trace on a
declined dialog). -/
def allClickMutationTraces : List (List Effect × List Effect) :=
  [(usersToggleBan false false true, usersToggleBan false false false),
   (usersToggleBan false true true, usersToggleBan false true false),
   (usersToggleBan true false true, usersToggleBan true false false),
   (usersToggleBan true true true, usersToggleBan true true false),
   (usersToggleVerify false true, usersToggleVerify false false),
   (usersToggleVerify true true, usersToggleVerify true false),
   (usersDeleteUser true, usersDeleteUser false),
   (messagesDeleteMessage true, messagesDeleteMessage false),
   (memoriesDeleteMemory true, memoriesDeleteMemory false),
   (couplesBreakupCouple true, couplesBreakupCouple false),
   (oldUsersHandleDeleteTrace true, oldUsersHandleDeleteTrace false),
   (oldMessagesHandleDeleteTrace true, oldMessagesHandleDeleteTrace false)]

/-- The `300` of `setTimeout(..., 300)` in the search debounce effects of
the Users, Couples, Memories and Messages pages. -/
def debounceDelay : Nat := 300

/-- The debounce effect's runtime state: the pending timer's fire time (if
any) and the times at which search requests have been issued. -/
structure DebounceState where
  pending : Option Nat
  fired : List Nat
deriving DecidableEq, Repr

/-- One keystroke at time `t` against the debounce effect: a pending timer
whose fire time has already passed has fired (issuing the request);
otherwise the effect cleanup's `clearTimeout` cancels it; either way the
effect body schedules a new timer at `t + 300`. -/
def debounceStep (s : DebounceState) (t : Nat) : DebounceState :=
  match s.pending with
  | some f =>
    if f ≤ t then
      { pending := some (t + debounceDelay), fired := s.fired ++ [f] }
    else
      { pending := some (t + debounceDelay), fired := s.fired }
  | none => { pending := some (t + debounceDelay), fired := s.fired }

/-- After the last keystroke, an uncancelled timer eventually fires. -/
def debounceFlush (s : DebounceState) : List Nat :=
  match s.pending with
  | some f => s.fired ++ [f]
  | none => s.fired

/-- The times at which the debounce effect issues a search request, for a
given time-ordered list of keystrokes (search-text changes). -/
def searchRequestTimes (changes : List Nat) : List Nat :=
  debounceFlush (changes.foldl debounceStep ⟨none, []⟩)

/-- The `5000` of `setInterval(loadLogs, 5000)` in `src/pages/ApiLogs.tsx`. -/
def apiLogsRefreshMs : Nat := 5000

/-- The `30000` of `setInterval(loadHealth, 30000)` in the System page. -/
def systemRefreshMs : Nat := 30000

/-- What a polling `useEffect` sets up: the interval it installs (with its
period), and whether its cleanup clears that interval. -/
structure PollingEffect where
  installs : Option Nat
  cleanupClears : Bool
deriving DecidableEq, Repr

/-- The ApiLogs polling effect: installs a 5 s interval only while
`autoRefresh` is checked; its cleanup clears the interval. -/
def apiLogsEffect (autoRefresh : Bool) : PollingEffect :=
  { installs := if autoRefresh then some apiLogsRefreshMs else none,
    cleanupClears := true }

/-- The System polling effect: installs a 30 s interval on mount; its
cleanup (on unmount) clears it. -/
def systemEffect : PollingEffect :=
  { installs := some systemRefreshMs, cleanupClears := true }

/-- Whether the effect's interval fires a polling request at time `t`
(milliseconds after the effect ran), given that the effect's cleanup ran
at time `stop`: multiples of the period fire, and once the cleanup has
cleared the interval nothing later fires. -/
def pollFiresAt (e : PollingEffect) (stop t : Nat) : Bool :=
  match e.installs with
  | none => false
  | some d => decide (0 < t) && t % d == 0 && (decide (t < stop) || !e.cleanupClears)

/-- A click on the Previous or Next pagination button. -/
inductive PageClick
  | prev
  | next
deriving DecidableEq, Repr

/-- The pagination buttons of the newer Users page: `onClick` moves the
page by one, and the `disabled` attribute (page 1 for Previous, the last
page for Next) keeps a click from firing at the boundary. -/
def pageClickNew (pages page : Nat) : PageClick → Nat
  | PageClick.prev => if page = 1 then page else page - 1
  | PageClick.next => if page = pages then page else page + 1

/-- The pagination buttons of the older Users page:
`setPage(p => Math.max(1, p - 1))` and
`setPage(p => Math.min(totalPages, p + 1))`. -/
def pageClickOld (totalPages page : Nat) : PageClick → Nat
  | PageClick.prev => max 1 (page - 1)
  | PageClick.next => min totalPages (page + 1)

/-- The page reached from page 1 after a sequence of clicks, newer page. -/
def runClicksNew (pages : Nat) (clicks : List PageClick) : Nat :=
  clicks.foldl (pageClickNew pages) 1

/-- The page reached from page 1 after a sequence of clicks, older page. -/
def runClicksOld (totalPages : Nat) (clicks : List PageClick) : Nat :=
  clicks.foldl (pageClickOld totalPages) 1

/-- The Dashboard's view state: the three response payloads (kept
abstract), the loading flag and the error message. -/
structure DashState where
  stats : Option String
  analytics : Option String
  activities : List String
  loading : Bool
  error : Option String
deriving DecidableEq, Repr

/-- `loadData` of `src/pages/Dashboard.tsx` as the sequence of states the
component passes through: `setError(null)`, `setLoading(true)`; then the
stats request — its failure is caught, setting the error, and the
`finally` clears loading; on success `setStats`, then the parallel
analytics/activity pair whose failure is swallowed by the inner catch;
the `finally` ends with `setLoading(false)`. -/
def dashLoadTrace (s0 : DashState) (statsRes : Except String String)
    (analyticsRes : Except String (String × List String)) : List DashState :=
  let s1 := { s0 with error := none }
  let s2 := { s1 with loading := true }
  match statsRes with
  | Except.error e =>
    let s3 := { s2 with error := some e }
    [s1, s2, s3, { s3 with loading := false }]
  | Except.ok st =>
    let s3 := { s2 with stats := some st }
    match analyticsRes with
    | Except.ok (a, acts) =>
      let s4 := { s3 with analytics := some a }
      let s5 := { s4 with activities := acts }
      [s1, s2, s3, s4, s5, { s5 with loading := false }]
    | Except.error _ =>
      [s1, s2, s3, { s3 with loading := false }]

/-- The Dashboard state once `loadData` has completed. -/
def dashLoadFinal (s0 : DashState) (statsRes : Except String String)
    (analyticsRes : Except String (String × List String)) : DashState :=
  (dashLoadTrace s0 statsRes analyticsRes).getLastD s0

/-- The view state of the newer Users page relevant to its loader: the
rows, the pagination payload (kept abstract) and the loading flag. -/
structure UsersPageState where
  users : List UserRow
  pagination : Option String
  loading : Bool
deriving DecidableEq, Repr

/-- `loadUsers` of `src/pages/Users.tsx` as the sequence of states from
the moment it is invoked: `setLoading(true)` before the request — so the
first entry, the state while the request is in flight, has the flag set —
then `setUsers` and `setPagination` on success, nothing in the catch, and
`setLoading(false)` in the `finally`. The Couples, Memories and Messages
loaders share this exact `setLoading(true)` … `finally setLoading(false)`
shape. -/
def usersLoadTrace (s0 : UsersPageState)
    (res : Except String (List UserRow × String)) : List UsersPageState :=
  let s1 := { s0 with loading := true }
  match res with
  | Except.ok (us, pg) =>
    let s2 := { s1 with users := us }
    let s3 := { s2 with pagination := some pg }
    [s1, s2, s3, { s3 with loading := false }]
  | Except.error _ => [s1, { s1 with loading := false }]

/-- The view state of the ApiLogs page relevant to its loader. -/
structure ApiLogsState where
  logs : List LogEntry
  stats : Option String
  loading : Bool
deriving DecidableEq, Repr

/-- `loadLogs` of `src/pages/ApiLogs.tsx` as the sequence of states from
the moment it is invoked: unlike the list-page loaders it performs no
state update before awaiting `getApiLogs`, so the first entry — the state
while the request is in flight — is the pre-call state unchanged; on
success it sets logs then stats, the catch only logs, and the `finally`
runs `setLoading(false)`. Nothing in the body ever sets loading true. -/
def apiLogsLoadTrace (s0 : ApiLogsState)
    (res : Except String (List LogEntry × String)) : List ApiLogsState :=
  match res with
  | Except.ok (ls, st) =>
    let s1 := { s0 with logs := ls }
    let s2 := { s1 with stats := some st }
    [s0, s1, s2, { s2 with loading := false }]
  | Except.error _ => [s0, { s0 with loading := false }]

/-- The view state of the System page relevant to its loader. -/
structure SystemState where
  health : Option String
  loading : Bool
deriving DecidableEq, Repr

/-- `loadHealth` of the System page (`src/unnamed/part_002`): no state
update before awaiting `getSystemHealth`, `setHealth` on success, the
catch only logs, and the `finally` runs `setLoading(false)`; it, too,
never sets loading true. -/
def systemLoadTrace (s0 : SystemState) (res : Except String String) :
    List SystemState :=
  match res with
  | Except.ok h =>
    let s1 := { s0 with health := some h }
    [s0, s1, { s1 with loading := false }]
  | Except.error _ => [s0, { s0 with loading := false }]

/-! ### Theorems -/

/-- C1 counterexample: it is false that every button-click mutation
handler opens with a confirmation dialog and does nothing when declined —
`toggleVerify` (the fifth and sixth entries of the trace table) never
shows a dialog at all. -/
theorem C1_counterexample :
    ¬ (∀ p ∈ allClickMutationTraces,
        hasConfirmFirst p.1 = true ∧ mutationFree p.2 = true) := by
  decide

/-- C1 amended: every button-click mutation handler except `toggleVerify`
(delete user, delete message, delete memory, break up couple, ban/unban)
is preceded by a confirmation dialog and, when the admin declines, issues
no request and leaves view state unchanged; `toggleVerify` shows no
dialog and issues its update request unconditionally. -/
theorem C1_confirm_guards (cur sel a : Bool) :
    hasConfirmFirst (usersToggleBan cur sel true) = true ∧
    mutationFree (usersToggleBan cur sel false) = true ∧
    hasConfirmFirst (usersDeleteUser true) = true ∧
    mutationFree (usersDeleteUser false) = true ∧
    hasConfirmFirst (messagesDeleteMessage true) = true ∧
    mutationFree (messagesDeleteMessage false) = true ∧
    hasConfirmFirst (memoriesDeleteMemory true) = true ∧
    mutationFree (memoriesDeleteMemory false) = true ∧
    hasConfirmFirst (couplesBreakupCouple true) = true ∧
    mutationFree (couplesBreakupCouple false) = true ∧
    hasConfirmFirst (oldUsersHandleDeleteTrace true) = true ∧
    mutationFree (oldUsersHandleDeleteTrace false) = true ∧
    hasConfirmFirst (oldMessagesHandleDeleteTrace true) = true ∧
    mutationFree (oldMessagesHandleDeleteTrace false) = true ∧
    hasConfirmFirst (usersToggleVerify sel a) = false ∧
    (usersToggleVerify sel a).any Effect.isRequest = true := by
  cases cur <;> cases sel <;> cases a <;> decide

/-- C2 counterexample: it is false that every mutation besides the login
POST is a DELETE or a PATCH — `updateUser` of the `App.tsx` client is a
PUT. -/
theorem C2_counterexample :
    ¬ (∀ e ∈ client1Endpoints ++ client2Endpoints, e.isMutation = true →
        e.name ≠ "login" →
        (e.method = Method.DELETE ∨ e.method = Method.PATCH)) := by
  decide

/-- C2 amended: every mutation the two clients can issue is a DELETE, a
PATCH or a PUT besides the POST login call; ban/unban and verify go
through `updateUser` on `/admin/users/{id}`, a PATCH in the
`services/api.ts` client but a PUT in the client bundled with
`App.tsx`. -/
theorem C2_mutation_methods (e : Endpoint)
    (he : e ∈ client1Endpoints ++ client2Endpoints)
    (hm : e.isMutation = true) (id : String) :
    ((e.name = "login" ∧ e.method = Method.POST) ∨
      e.method = Method.DELETE ∨ e.method = Method.PATCH ∨
      e.method = Method.PUT) ∧
    client1UpdateUser id = (Method.PATCH, "/admin/users/" ++ id) ∧
    client2UpdateUser id = (Method.PUT, "/admin/users/" ++ id) := by
  refine ⟨?_, rfl, rfl⟩
  have h : ∀ x ∈ client1Endpoints ++ client2Endpoints, x.isMutation = true →
      ((x.name = "login" ∧ x.method = Method.POST) ∨
        x.method = Method.DELETE ∨ x.method = Method.PATCH ∨
        x.method = Method.PUT) := by
    decide
  exact h e he hm

/-- C2 witness: the amended statement at the `deleteUser` endpoint of the
first client with the concrete id `u1`. -/
theorem C2_mutation_methods_witness :
    (((Endpoint.mk "deleteUser" Method.DELETE "/admin/users/{id}").name =
          "login" ∧
        (Endpoint.mk "deleteUser" Method.DELETE "/admin/users/{id}").method =
          Method.POST) ∨
      (Endpoint.mk "deleteUser" Method.DELETE "/admin/users/{id}").method =
        Method.DELETE ∨
      (Endpoint.mk "deleteUser" Method.DELETE "/admin/users/{id}").method =
        Method.PATCH ∨
      (Endpoint.mk "deleteUser" Method.DELETE "/admin/users/{id}").method =
        Method.PUT) ∧
    client1UpdateUser "u1" = (Method.PATCH, "/admin/users/" ++ "u1") ∧
    client2UpdateUser "u1" = (Method.PUT, "/admin/users/" ++ "u1") :=
  C2_mutation_methods (Endpoint.mk "deleteUser" Method.DELETE "/admin/users/{id}")
    (by decide) (by decide) "u1"

/-- C6: for every list of log entries and every filter selection, the
displayed list is exactly the entries satisfying the filter's predicate
(status ≥ 400 for `errors`, duration > 1000 for `slow`, everything for
`all`), in their original order (a sublist of the input). -/
theorem C6_filteredLogs_exact (logs : List LogEntry) (e : LogEntry)
    (f : LogFilter) :
    (filteredLogs f logs).Sublist logs ∧
    (e ∈ filteredLogs LogFilter.errors logs ↔ e ∈ logs ∧ e.status ≥ 400) ∧
    (e ∈ filteredLogs LogFilter.slow logs ↔ e ∈ logs ∧ e.duration > 1000) ∧
    filteredLogs LogFilter.all logs = logs := by
  refine ⟨List.filter_sublist logs, ?_, ?_, ?_⟩
  · simp [filteredLogs, List.mem_filter, logMatches]
  · simp [filteredLogs, List.mem_filter, logMatches]
  · simp [filteredLogs, logMatches]

/-- C8: a 401 error response makes the interceptor drop the stored admin
token and redirect to `/`; any other error leaves the state untouched;
in both cases the very same error object is propagated to the caller. -/
theorem C8_interceptor_401 (err : AxiosError) (st : ClientState) :
    (err.status = some 401 →
      (onResponseError err st).1.token = none ∧
      (onResponseError err st).1.location = "/") ∧
    (err.status ≠ some 401 → (onResponseError err st).1 = st) ∧
    (onResponseError err st).2 = err := by
  refine ⟨?_, ?_, ?_⟩
  · intro h
    simp [onResponseError, h]
  · intro h
    simp [onResponseError, h]
  · by_cases h : err.status = some 401 <;> simp [onResponseError, h]

/-- C8 witness: a concrete 401 error makes the interceptor drop the token
and redirect. -/
theorem C8_interceptor_401_witness :
    (onResponseError (AxiosError.mk (some 401) "unauthorized")
      (ClientState.mk (some "tok") "/users")).1.token = none ∧
    (onResponseError (AxiosError.mk (some 401) "unauthorized")
      (ClientState.mk (some "tok") "/users")).1.location = "/" :=
  (C8_interceptor_401 (AxiosError.mk (some 401) "unauthorized")
    (ClientState.mk (some "tok") "/users")).1 rfl

/-- C9: after a confirmed, successful delete on the older Users and
Messages pages, the local list equals the previous list with exactly the
entries whose `_id` equals the deleted id removed — remaining entries
unchanged, original order kept (sublist) — and a failed delete leaves the
list unchanged. -/
theorem C9_delete_filters_list (users : List UserRow)
    (messages : List MessageRow) (uid mid : String) (modal : Bool)
    (u : UserRow) (m : MessageRow) :
    (usersHandleDelete true true users uid modal).1 =
      users.filter (fun x => x._id != uid) ∧
    (u ∈ (usersHandleDelete true true users uid modal).1 ↔
      u ∈ users ∧ u._id ≠ uid) ∧
    ((usersHandleDelete true true users uid modal).1).Sublist users ∧
    (usersHandleDelete true false users uid modal).1 = users ∧
    messagesHandleDelete true true messages mid =
      messages.filter (fun x => x._id != mid) ∧
    (m ∈ messagesHandleDelete true true messages mid ↔
      m ∈ messages ∧ m._id ≠ mid) ∧
    (messagesHandleDelete true true messages mid).Sublist messages ∧
    messagesHandleDelete true false messages mid = messages := by
  refine ⟨rfl, ?_, ?_, rfl, rfl, ?_, ?_, rfl⟩
  · simp [usersHandleDelete, List.mem_filter]
  · exact List.filter_sublist users
  · simp [messagesHandleDelete, List.mem_filter]
  · exact List.filter_sublist messages

/-- C10: `getActivityStatus` is exhaustive and mutually exclusive over
elapsed time: `Never` when `lastActive` is absent, `Online` under 1 hour,
`Nh ago` (N = floored hour count) under 24 hours, `Nd ago` (N = floored
day count) under 168 hours, `Inactive` from 168 hours on. -/
theorem C10_activity_status (nowMs t : Int) :
    getActivityStatus nowMs none = ActivityLabel.never ∧
    (nowMs - t < msPerHour →
      getActivityStatus nowMs (some t) = ActivityLabel.online) ∧
    (msPerHour ≤ nowMs - t → nowMs - t < 24 * msPerHour →
      getActivityStatus nowMs (some t) =
        ActivityLabel.hoursAgo ((nowMs - t) / msPerHour)) ∧
    (24 * msPerHour ≤ nowMs - t → nowMs - t < 168 * msPerHour →
      getActivityStatus nowMs (some t) =
        ActivityLabel.daysAgo ((nowMs - t) / (24 * msPerHour))) ∧
    (168 * msPerHour ≤ nowMs - t →
      getActivityStatus nowMs (some t) = ActivityLabel.inactive) := by
  refine ⟨rfl, ?_, ?_, ?_, ?_⟩
  · intro h
    simp [getActivityStatus, h]
  · intro h1 h2
    simp [getActivityStatus, not_lt.mpr h1, h2]
  · intro h1 h2
    have h0 : ¬ nowMs - t < msPerHour := by
      have : msPerHour ≤ 24 * msPerHour := by norm_num [msPerHour]
      omega
    simp [getActivityStatus, h0, not_lt.mpr h1, h2]
  · intro h1
    have h0 : ¬ nowMs - t < msPerHour := by
      have : msPerHour ≤ 168 * msPerHour := by norm_num [msPerHour]
      omega
    have h24 : ¬ nowMs - t < 24 * msPerHour := by
      have : (24 : Int) * msPerHour ≤ 168 * msPerHour := by norm_num [msPerHour]
      omega
    simp [getActivityStatus, h0, h24, not_lt.mpr h1]

/-- C10 witness: a user last active exactly 10 hours ago is labelled
`10h ago`, instantiating the hour branch of the theorem. -/
theorem C10_activity_status_witness :
    getActivityStatus (10 * 3600000) (some 0) = ActivityLabel.hoursAgo 10 := by
  have h := (C10_activity_status (10 * 3600000) 0).2.2.1
    (by norm_num [msPerHour]) (by norm_num [msPerHour])
  simpa [msPerHour] using h

/-- Debounce fold invariant: running the effect over keystrokes `l`, all
later than `c`, with a timer pending for `c + 300`, every request the run
issues either was already issued (`F`) or lands 300 ms after some
keystroke that no later keystroke interrupts inside that window. -/
theorem debounce_aux (l : List Nat) : ∀ (c : Nat) (F : List Nat),
    l.Sorted (· < ·) → (∀ t ∈ l, c < t) →
    ∀ f ∈ debounceFlush
        (l.foldl debounceStep ⟨some (c + debounceDelay), F⟩),
      f ∈ F ∨ ∃ d, (d = c ∨ d ∈ l) ∧ f = d + debounceDelay ∧
        ∀ c' ∈ l, c' ≤ d ∨ d + debounceDelay ≤ c' := by
  induction l with
  | nil =>
    intro c F _ _ f hf
    simp only [List.foldl_nil, debounceFlush] at hf
    rcases List.mem_append.mp hf with hf | hf
    · exact Or.inl hf
    · refine Or.inr ⟨c, Or.inl rfl, List.mem_singleton.mp hf, ?_⟩
      intro c' hc'
      simp at hc'
  | cons t rest ih =>
    intro c F hs hc f hf
    have hs' : rest.Sorted (· < ·) := hs.of_cons
    have ht : ∀ u ∈ rest, t < u := fun u hu => (List.sorted_cons.mp hs).1 u hu
    have hct : c < t := hc t (List.mem_cons_self t rest)
    rw [List.foldl_cons] at hf
    by_cases hle : c + debounceDelay ≤ t
    · have hstep : debounceStep ⟨some (c + debounceDelay), F⟩ t =
          ⟨some (t + debounceDelay), F ++ [c + debounceDelay]⟩ := by
        simp [debounceStep, hle]
      rw [hstep] at hf
      rcases ih t (F ++ [c + debounceDelay]) hs' ht f hf with hmem | ⟨d, hd, hfd, hwin⟩
      · rcases List.mem_append.mp hmem with hmem | hmem
        · exact Or.inl hmem
        · refine Or.inr ⟨c, Or.inl rfl, List.mem_singleton.mp hmem, ?_⟩
          intro c' hc'
          rcases List.mem_cons.mp hc' with rfl | hc'
          · exact Or.inr hle
          · exact Or.inr (le_trans hle (le_of_lt (ht c' hc')))
      · refine Or.inr ⟨d, ?_, hfd, ?_⟩
        · rcases hd with rfl | hd
          · exact Or.inr (List.mem_cons_self d rest)
          · exact Or.inr (List.mem_cons_of_mem t hd)
        · intro c' hc'
          rcases List.mem_cons.mp hc' with rfl | hc'
          · rcases hd with rfl | hd
            · exact Or.inl le_rfl
            · exact Or.inl (le_of_lt (ht d hd))
          · exact hwin c' hc'
    · have hstep : debounceStep ⟨some (c + debounceDelay), F⟩ t =
          ⟨some (t + debounceDelay), F⟩ := by
        simp [debounceStep, hle]
      rw [hstep] at hf
      rcases ih t F hs' ht f hf with hmem | ⟨d, hd, hfd, hwin⟩
      · exact Or.inl hmem
      · refine Or.inr ⟨d, ?_, hfd, ?_⟩
        · rcases hd with rfl | hd
          · exact Or.inr (List.mem_cons_self d rest)
          · exact Or.inr (List.mem_cons_of_mem t hd)
        · intro c' hc'
          rcases List.mem_cons.mp hc' with rfl | hc'
          · rcases hd with rfl | hd
            · exact Or.inl le_rfl
            · exact Or.inl (le_of_lt (ht d hd))
          · exact hwin c' hc'

/-- C3: for a time-ordered sequence of keystrokes, every search request
the debounce effect issues lands exactly 300 ms after a keystroke that no
other keystroke follows within 300 ms; consequently a keystroke followed
within 300 ms by another never produces a request — each keystroke
cancels the previously scheduled search, and no request fires while
typing continues. -/
theorem C3_debounce_only_after_pause (changes : List Nat)
    (hs : changes.Sorted (· < ·)) (f : Nat)
    (hf : f ∈ searchRequestTimes changes) :
    (∃ c ∈ changes, f = c + debounceDelay ∧
      ∀ c' ∈ changes, c' ≤ c ∨ c + debounceDelay ≤ c') ∧
    ∀ c ∈ changes, ∀ c' ∈ changes, c < c' → c' < c + debounceDelay →
      f ≠ c + debounceDelay := by
  have main : ∃ c ∈ changes, f = c + debounceDelay ∧
      ∀ c' ∈ changes, c' ≤ c ∨ c + debounceDelay ≤ c' := by
    cases changes with
    | nil => simp [searchRequestTimes, debounceFlush] at hf
    | cons c rest =>
      have hs' : rest.Sorted (· < ·) := hs.of_cons
      have hc : ∀ u ∈ rest, c < u := fun u hu => (List.sorted_cons.mp hs).1 u hu
      have hstep : debounceStep ⟨none, []⟩ c =
          ⟨some (c + debounceDelay), []⟩ := rfl
      rw [searchRequestTimes, List.foldl_cons, hstep] at hf
      rcases debounce_aux rest c [] hs' hc f hf with hmem | ⟨d, hd, hfd, hwin⟩
      · simp at hmem
      · refine ⟨d, ?_, hfd, ?_⟩
        · rcases hd with rfl | hd
          · exact List.mem_cons_self d rest
          · exact List.mem_cons_of_mem c hd
        · intro c' hc'
          rcases List.mem_cons.mp hc' with rfl | hc'
          · rcases hd with rfl | hd
            · exact Or.inl le_rfl
            · exact Or.inl (le_of_lt (hc d hd))
          · exact hwin c' hc'
  refine ⟨main, ?_⟩
  intro c hcmem c' hc'mem hlt hlt' hfeq
  rcases main with ⟨d, hdmem, hfd, hwin⟩
  have hdc : d = c := by omega
  subst hdc
  rcases hwin c' hc'mem with h | h
  · omega
  · omega

/-- C3 witness: keystrokes at 0, 100 and 600 ms; the request at 400 ms
comes from the keystroke at 100 ms, whose window is uninterrupted, while
the keystroke at 0 ms (followed at 100 ms) never fires. -/
theorem C3_debounce_witness :
    (∃ c ∈ ([0, 100, 600] : List Nat), 400 = c + debounceDelay ∧
      ∀ c' ∈ ([0, 100, 600] : List Nat), c' ≤ c ∨ c + debounceDelay ≤ c') ∧
    ∀ c ∈ ([0, 100, 600] : List Nat), ∀ c' ∈ ([0, 100, 600] : List Nat),
      c < c' → c' < c + debounceDelay → 400 ≠ c + debounceDelay :=
  C3_debounce_only_after_pause [0, 100, 600] (by decide) 400 (by decide)

/-- C4: the ApiLogs effect installs a 5-second interval exactly while
auto-refresh is enabled (none when disabled), the System effect a
30-second interval; both periods lie in the stated 5-to-30-second range;
and every poll the installed interval fires happens strictly before the
cleanup (disable / unmount) time — nothing fires afterwards. -/
theorem C4_polling_intervals (stop t : Nat) :
    ((apiLogsEffect true).installs = some apiLogsRefreshMs ∧
      (apiLogsEffect false).installs = none ∧
      systemEffect.installs = some systemRefreshMs ∧
      5 * 1000 ≤ apiLogsRefreshMs ∧ apiLogsRefreshMs ≤ 30 * 1000 ∧
      5 * 1000 ≤ systemRefreshMs ∧ systemRefreshMs ≤ 30 * 1000) ∧
    (pollFiresAt (apiLogsEffect true) stop t = true →
      0 < t ∧ t % apiLogsRefreshMs = 0 ∧ t < stop) ∧
    pollFiresAt (apiLogsEffect false) stop t = false ∧
    (pollFiresAt systemEffect stop t = true →
      0 < t ∧ t % systemRefreshMs = 0 ∧ t < stop) := by
  refine ⟨⟨rfl, rfl, rfl, by norm_num [apiLogsRefreshMs],
    by norm_num [apiLogsRefreshMs], by norm_num [systemRefreshMs],
    by norm_num [systemRefreshMs]⟩, ?_, ?_, ?_⟩
  · intro h
    simp only [pollFiresAt, apiLogsEffect, if_true, Bool.and_eq_true,
      Bool.or_eq_true, decide_eq_true_eq, beq_iff_eq, Bool.not_true] at h
    rcases h with ⟨⟨h1, h2⟩, h3 | h3⟩
    · exact ⟨h1, h2, h3⟩
    · cases h3
  · simp [pollFiresAt, apiLogsEffect]
  · intro h
    simp only [pollFiresAt, systemEffect, Bool.and_eq_true,
      Bool.or_eq_true, decide_eq_true_eq, beq_iff_eq, Bool.not_true] at h
    rcases h with ⟨⟨h1, h2⟩, h3 | h3⟩
    · exact ⟨h1, h2, h3⟩
    · cases h3

/-- C4 witness: with auto-refresh on and cleanup at 10 s, the poll at
5 s is a period multiple that precedes the cleanup. -/
theorem C4_polling_intervals_witness :
    0 < 5000 ∧ 5000 % apiLogsRefreshMs = 0 ∧ 5000 < 10000 :=
  (C4_polling_intervals 10000 5000).2.1 (by decide)

/-- C5: starting from page 1, any sequence of Previous/Next clicks keeps
the page inside [1, pages], on the newer Users page (disabled buttons at
the boundaries) as well as the older one (Math.max / Math.min clamps). -/
theorem C5_pagination_bounds (pages : Nat) (hp : 1 ≤ pages)
    (clicks : List PageClick) :
    (1 ≤ runClicksNew pages clicks ∧ runClicksNew pages clicks ≤ pages) ∧
    (1 ≤ runClicksOld pages clicks ∧ runClicksOld pages clicks ≤ pages) := by
  have hnew : ∀ (l : List PageClick) (p : Nat), 1 ≤ p → p ≤ pages →
      1 ≤ l.foldl (pageClickNew pages) p ∧
        l.foldl (pageClickNew pages) p ≤ pages := by
    intro l
    induction l with
    | nil =>
      intro p h1 h2
      exact ⟨h1, h2⟩
    | cons c cs ih =>
      intro p h1 h2
      rw [List.foldl_cons]
      have hb : 1 ≤ pageClickNew pages p c ∧ pageClickNew pages p c ≤ pages := by
        cases c <;> simp only [pageClickNew] <;> constructor <;> split <;> omega
      exact ih _ hb.1 hb.2
  have hold : ∀ (l : List PageClick) (p : Nat), 1 ≤ p → p ≤ pages →
      1 ≤ l.foldl (pageClickOld pages) p ∧
        l.foldl (pageClickOld pages) p ≤ pages := by
    intro l
    induction l with
    | nil =>
      intro p h1 h2
      exact ⟨h1, h2⟩
    | cons c cs ih =>
      intro p h1 h2
      rw [List.foldl_cons]
      have hb : 1 ≤ pageClickOld pages p c ∧ pageClickOld pages p c ≤ pages := by
        cases c <;> simp only [pageClickOld] <;> omega
      exact ih _ hb.1 hb.2
  exact ⟨hnew clicks 1 le_rfl hp, hold clicks 1 le_rfl hp⟩

/-- C5 witness: three Next clicks then a Previous with 3 pages stay in
[1, 3] on both page versions. -/
theorem C5_pagination_bounds_witness :
    (1 ≤ runClicksNew 3 [PageClick.next, PageClick.next, PageClick.next,
        PageClick.prev] ∧
      runClicksNew 3 [PageClick.next, PageClick.next, PageClick.next,
        PageClick.prev] ≤ 3) ∧
    (1 ≤ runClicksOld 3 [PageClick.next, PageClick.next, PageClick.next,
        PageClick.prev] ∧
      runClicksOld 3 [PageClick.next, PageClick.next, PageClick.next,
        PageClick.prev] ≤ 3) :=
  C5_pagination_bounds 3 (by decide)
    [PageClick.next, PageClick.next, PageClick.next, PageClick.prev]

/-- C7 counterexample: on the ApiLogs page, a refresh fetch starting from
the already-loaded state (loading false, as after the initial load) does
not keep loading true for the duration of the request — `loadLogs` never
sets the flag back to true, so the in-flight and intermediate states all
carry loading false. -/
theorem C7_counterexample :
    ¬ (∀ s ∈ (apiLogsLoadTrace (ApiLogsState.mk [] none false)
        (Except.ok ([], "st"))).dropLast, s.loading = true) := by
  decide

/-- C7 amended: the Dashboard load (and the Users/Couples/Memories/
Messages loaders, which share its `setLoading(true)` … `finally
setLoading(false)` shape) keeps loading true through every intermediate
state and false once finished whatever the outcome, and enters the error
state exactly when the stats request fails — an analytics/activity
failure still ends loaded with the stats and no error; the ApiLogs and
System fetches only ever set loading false: they end with it false, and
once it is false a refresh fetch leaves it false throughout. -/
theorem C7_load_flag_shape (s0 : DashState)
    (statsRes : Except String String)
    (analyticsRes : Except String (String × List String))
    (u0 : UsersPageState) (uRes : Except String (List UserRow × String))
    (a0 : ApiLogsState) (aRes : Except String (List LogEntry × String))
    (y0 : SystemState) (yRes : Except String String) :
    ((∀ s ∈ ((dashLoadTrace s0 statsRes analyticsRes).tail).dropLast,
        s.loading = true) ∧
      (dashLoadFinal s0 statsRes analyticsRes).loading = false ∧
      (∀ e, statsRes = Except.error e →
        (dashLoadFinal s0 statsRes analyticsRes).error = some e) ∧
      (∀ st, statsRes = Except.ok st →
        (dashLoadFinal s0 statsRes analyticsRes).error = none ∧
        (dashLoadFinal s0 statsRes analyticsRes).stats = some st)) ∧
    ((∀ s ∈ (usersLoadTrace u0 uRes).dropLast, s.loading = true) ∧
      ((usersLoadTrace u0 uRes).getLastD u0).loading = false) ∧
    (((apiLogsLoadTrace a0 aRes).getLastD a0).loading = false ∧
      (a0.loading = false →
        ∀ s ∈ apiLogsLoadTrace a0 aRes, s.loading = false)) ∧
    (((systemLoadTrace y0 yRes).getLastD y0).loading = false ∧
      (y0.loading = false →
        ∀ s ∈ systemLoadTrace y0 yRes, s.loading = false)) := by
  refine ⟨?_, ?_, ?_, ?_⟩
  · rcases statsRes with e | st
    · refine ⟨?_, rfl, ?_, ?_⟩
      · intro s hsmem
        simp [dashLoadTrace] at hsmem
        rcases hsmem with rfl | rfl <;> rfl
      · intro e' he'
        cases he'
        rfl
      · intro st hst
        cases hst
    · rcases analyticsRes with e' | ⟨a, acts⟩
      · refine ⟨?_, rfl, ?_, ?_⟩
        · intro s hsmem
          simp [dashLoadTrace] at hsmem
          rcases hsmem with rfl | rfl <;> rfl
        · intro e'' he''
          cases he''
        · intro st' hst'
          cases hst'
          exact ⟨rfl, rfl⟩
      · refine ⟨?_, rfl, ?_, ?_⟩
        · intro s hsmem
          simp [dashLoadTrace] at hsmem
          rcases hsmem with rfl | rfl | rfl | rfl <;> rfl
        · intro e'' he''
          cases he''
        · intro st' hst'
          cases hst'
          exact ⟨rfl, rfl⟩
  · rcases uRes with e | ⟨us, pg⟩
    · refine ⟨?_, rfl⟩
      intro s hsmem
      simp [usersLoadTrace] at hsmem
      subst hsmem
      rfl
    · refine ⟨?_, rfl⟩
      intro s hsmem
      simp [usersLoadTrace] at hsmem
      rcases hsmem with rfl | rfl | rfl <;> rfl
  · rcases aRes with e | ⟨ls, st⟩
    · refine ⟨rfl, ?_⟩
      intro h0 s hsmem
      simp [apiLogsLoadTrace] at hsmem
      rcases hsmem with rfl | rfl
      · exact h0
      · rfl
    · refine ⟨rfl, ?_⟩
      intro h0 s hsmem
      simp [apiLogsLoadTrace] at hsmem
      rcases hsmem with rfl | rfl | rfl | rfl
      · exact h0
      · exact h0
      · exact h0
      · rfl
  · rcases yRes with e | h
    · refine ⟨rfl, ?_⟩
      intro h0 s hsmem
      simp [systemLoadTrace] at hsmem
      rcases hsmem with rfl | rfl
      · exact h0
      · rfl
    · refine ⟨rfl, ?_⟩
      intro h0 s hsmem
      simp [systemLoadTrace] at hsmem
      rcases hsmem with rfl | rfl | rfl
      · exact h0
      · exact h0
      · rfl

/-- C7 witness: stats succeed, the analytics/activity pair fails — the
dashboard ends loaded, error-free, showing the stats. -/
theorem C7_load_flag_shape_witness :
    (dashLoadFinal (DashState.mk none none [] false (some "old"))
      (Except.ok "S") (Except.error "boom")).error = none ∧
    (dashLoadFinal (DashState.mk none none [] false (some "old"))
      (Except.ok "S") (Except.error "boom")).stats = some "S" :=
  (C7_load_flag_shape (DashState.mk none none [] false (some "old"))
    (Except.ok "S") (Except.error "boom")
    (UsersPageState.mk [] none false) (Except.ok ([], "pg"))
    (ApiLogsState.mk [] none false) (Except.ok ([], "st"))
    (SystemState.mk none false) (Except.ok "h")).1.2.2.2 "S" rfl
